import Mathlib

/-!
Shallow embedding of the automation rule engine of the IoT platform
(`src/services/automation_engine.py`) together with proofs about the
behaviour of its condition evaluator, action executor, rate limiter and
rule-evaluation loop.

Modelling conventions:
* Python `datetime` values are integers (seconds on an absolute axis);
  `timedelta(minutes=m)` is `60 * m`; `datetime.min` is the constant
  `datetime_min` (seconds of 0001-01-01 relative to the Unix epoch).
* JSON numeric values (telemetry values, thresholds) are rationals `ℚ`.
* Dictionary accesses `d.get(key)` are `Option` fields; `d.get(key, v)` is
  an `Option` field read with `Option.getD v` at the use site, exactly
  where the Python code supplies the default.
* `json.loads` of a malformed document raises; a rule's stored
  `trigger_condition` / `action_command` text is therefore modelled as an
  `Option` of the parsed tree, `none` meaning the parse raises.
* Side effects (MQTT publish, logging, webhooks, sleeps) are recorded as
  an ordered list of `Event`s; an exception raised by a collaborator and
  caught by a `try/except` block in the source becomes an error event.
* Python string comparison (`<=` on `"HH:MM"` strings) is lexicographic
  comparison of the character sequences, `str_le`.
-/

namespace AutomationEngine

/-- Row of the `DeviceData` table: one telemetry sample. -/
structure DeviceData where
  device_id : String
  data_type : String
  timestamp : Int
  value : ℚ
deriving DecidableEq, Repr

/-- Row of the `Device` table, restricted to the fields the engine reads. -/
structure Device where
  device_id : String
  status : String
deriving DecidableEq, Repr

/-- Parameters of a `time_based` condition, discriminated by `time_type`. -/
inductive TimeSpec where
  | time_of_day (start_time : Option String) (end_time : Option String)
  | day_of_week (days : List Int)
  | interval (interval_minutes : Option Int) (last_trigger : Option Int)
  | unknown_time_type
deriving DecidableEq, Repr

mutual
/-- Parsed trigger-condition tree, discriminated by the JSON `type` field.
Leaf fields are `Option`s because the Python code reads them with
`condition.get(...)`, which yields `None` when the key is absent. -/
inductive Condition where
  | value_threshold (data_type : Option String) (operator : Option String)
      (threshold : Option ℚ) (time_window_minutes : Option Int)
  | value_change (data_type : Option String) (change_type : Option String)
      (min_change : Option ℚ) (time_window_minutes : Option Int)
  | time_based (spec : TimeSpec)
  | device_status (status : Option String)
  | composite (operator : Option String) (conditions : CondList)
  | unknown_type
deriving DecidableEq, Repr

/-- List of sub-conditions of a `composite` node; each sub-condition dict
carries its own `device_id` key (read with `sub_cond.get('device_id')`). -/
inductive CondList where
  | nil
  | cons (device_id : Option String) (cond : Condition) (rest : CondList)
deriving DecidableEq, Repr
end

mutual
/-- Parsed action tree, discriminated by the JSON `type` field. -/
inductive ActionCmd where
  | device_command (command : Option String)
  | notification (message : Option String) (notification_type : Option String)
  | webhook (url : Option String) (method : Option String)
  | delay (delay_seconds : Option Int)
  | sequence (actions : ActionList)
  | unknown_type
deriving DecidableEq, Repr

/-- List of sub-actions of a `sequence` node; each sub-action dict carries
its own `device_id` key. -/
inductive ActionList where
  | nil
  | cons (device_id : Option String) (action : ActionCmd) (rest : ActionList)
deriving DecidableEq, Repr
end

/-- Root of a parsed `trigger_condition` document: the condition tree plus
the optional root-level `min_interval_seconds` key. -/
structure TriggerSpec where
  min_interval_seconds : Option Int
  cond : Condition
deriving DecidableEq, Repr

/-- Row of the `AutomationRule` table, restricted to the fields the engine
reads.  `trigger_condition` and `action_command` are stored as JSON text;
`none` models a document on which `json.loads` raises. -/
structure Rule where
  id : Nat
  trigger_device_id : String
  trigger_condition : Option TriggerSpec
  action_device_id : String
  action_command : Option ActionCmd
  is_active : Bool

/-- Ambient world a single engine tick runs against: the clock readings,
the database tables and the behaviour of the MQTT / HTTP collaborators.
`publish_raises d` models `mqtt_service.publish_command` raising for
device `d`; `webhook_raises` models the HTTP call raising. -/
structure Env where
  now : Int
  now_local_hhmm : String
  now_weekday : Int
  db : List DeviceData
  devices : List Device
  mqtt_connected : Bool
  publish_raises : Option String → Bool
  webhook_raises : Bool

/-- Seconds of Python's `datetime.min` (0001-01-01 00:00:00) relative to
the Unix epoch: the default "last evaluation" time of a rule that has
never fired. -/
def datetime_min : Int := -62135596800

/-- Lexicographic order on character lists, as Python compares strings. -/
def chars_le : List Char → List Char → Bool
  | [], _ => true
  | _ :: _, [] => false
  | a :: as, b :: bs =>
    if a < b then true
    else if b < a then false
    else chars_le as bs

/-- Python `s1 <= s2` on strings. -/
def str_le (a b : String) : Bool := chars_le a.data b.data

/-- Ordering used by `order_by(DeviceData.timestamp.desc())`. -/
def ts_desc (a b : DeviceData) : Prop := b.timestamp ≤ a.timestamp

instance : DecidableRel ts_desc :=
  fun a b => inferInstanceAs (Decidable (b.timestamp ≤ a.timestamp))

instance : IsTotal DeviceData ts_desc := ⟨fun a b => le_total b.timestamp a.timestamp⟩

instance : IsTrans DeviceData ts_desc :=
  ⟨fun _ _ _ h1 h2 => le_trans h2 h1⟩

/-- Result of
`DeviceData.query.filter(device_id == dev, data_type == dt, timestamp >= since)
 .order_by(DeviceData.timestamp.desc())`:
the matching samples, newest first.  `dev` and `dt` are the values the
condition dict supplied (possibly `None`, which matches no row since the
columns are non-null). -/
def query_desc (db : List DeviceData) (dev dt : Option String) (since : Int) :
    List DeviceData :=
  List.insertionSort ts_desc
    (db.filter (fun d =>
      some d.device_id == dev && some d.data_type == dt && since ≤ d.timestamp))

/-- Embedding of `AutomationEngine._check_value_threshold`. -/
def check_value_threshold (env : Env) (device_id : Option String)
    (data_type : Option String) (operator : Option String)
    (threshold : Option ℚ) (time_window_minutes : Option Int) : Bool :=
  let time_window := time_window_minutes.getD 5
  let since_time := env.now - 60 * time_window
  match (query_desc env.db device_id data_type since_time).head? with
  | none => false
  | some recent_data =>
    match threshold, operator with
    | some thr, some "gt" => decide (recent_data.value > thr)
    | some thr, some "lt" => decide (recent_data.value < thr)
    | some thr, some "eq" => decide (recent_data.value = thr)
    | some thr, some "gte" => decide (recent_data.value ≥ thr)
    | some thr, some "lte" => decide (recent_data.value ≤ thr)
    | _, _ => false

/-- Embedding of `AutomationEngine._check_value_change`. -/
def check_value_change (env : Env) (device_id : Option String)
    (data_type : Option String) (change_type : Option String)
    (min_change : Option ℚ) (time_window_minutes : Option Int) : Bool :=
  let time_window := time_window_minutes.getD 10
  let since_time := env.now - 60 * time_window
  match (query_desc env.db device_id data_type since_time).take 2 with
  | current_data :: previous_data :: _ =>
    let change := current_data.value - previous_data.value
    let mc := min_change.getD 0
    match change_type with
    | some "increase" => decide (change ≥ mc)
    | some "decrease" => decide (change ≤ -mc)
    | some "any" => decide (|change| ≥ mc)
    | _ => false
  | _ => false

/-- Embedding of `AutomationEngine._check_time_based`. -/
def check_time_based (env : Env) : TimeSpec → Bool
  | .time_of_day start_time end_time =>
    match start_time, end_time with
    | some st, some et =>
      if str_le st et then str_le st env.now_local_hhmm && str_le env.now_local_hhmm et
      else str_le st env.now_local_hhmm || str_le env.now_local_hhmm et
    | _, _ => false
  | .day_of_week days => days.contains env.now_weekday
  | .interval interval_minutes last_trigger =>
    match last_trigger with
    | none => true
    | some t => decide (env.now - t ≥ (interval_minutes.getD 60) * 60)
  | .unknown_time_type => false

/-- Embedding of `AutomationEngine._check_device_status`. -/
def check_device_status (env : Env) (device_id : Option String)
    (status : Option String) : Bool :=
  match env.devices.find? (fun d => some d.device_id == device_id) with
  | none => false
  | some device =>
    match status with
    | some s => device.status == s
    | none => false

mutual
/-- Embedding of `AutomationEngine._check_trigger_condition`: dispatch on
the `type` discriminator; unknown types evaluate to `false`. -/
def check_trigger_condition (env : Env) (device_id : Option String) :
    Condition → Bool
  | .value_threshold dt op thr tw => check_value_threshold env device_id dt op thr tw
  | .value_change dt ct mc tw => check_value_change env device_id dt ct mc tw
  | .time_based spec => check_time_based env spec
  | .device_status st => check_device_status env device_id st
  | .composite op subs =>
    match op.getD "AND" with
    | "AND" => check_cond_list_all env subs
    | "OR" => check_cond_list_any env subs
    | _ => false
  | .unknown_type => false

/-- Python `all(self._check_trigger_condition(c.get('device_id'), c) for c in cs)`
inside `_check_composite_condition`. -/
def check_cond_list_all (env : Env) : CondList → Bool
  | .nil => true
  | .cons d c rest => check_trigger_condition env d c && check_cond_list_all env rest

/-- Python `any(...)` inside `_check_composite_condition`. -/
def check_cond_list_any (env : Env) : CondList → Bool
  | .nil => false
  | .cons d c rest => check_trigger_condition env d c || check_cond_list_any env rest
end

/-- Sub-conditions of a composite node as a plain list of
`(device_id, condition)` pairs, for stating properties. -/
def CondList.toList : CondList → List (Option String × Condition)
  | .nil => []
  | .cons d c rest => (d, c) :: rest.toList

/-- Observable effects of one engine tick, in order of occurrence.  Log
lines of the source are events; an exception caught by a `try/except`
block is the corresponding `..._error` event. -/
inductive Event where
  | rule_error (rule_id : Nat)
  | rule_triggered (rule_id : Nat)
  | command_sent (device_id : Option String) (command : Option String)
  | command_error (device_id : Option String)
  | mqtt_unavailable
  | notified (message : String)
  | webhook_done (url : String)
  | webhook_error
  | unsupported_method
  | delayed (seconds : Int)
  | unknown_action
deriving DecidableEq, Repr

/-- Embedding of `AutomationEngine._execute_device_command`: publish over
MQTT when connected; a raising publish is caught and logged. -/
def execute_device_command (env : Env) (device_id : Option String)
    (command : Option String) : List Event :=
  if env.mqtt_connected then
    if env.publish_raises device_id then [.command_error device_id]
    else [.command_sent device_id command]
  else [.mqtt_unavailable]

/-- Embedding of `AutomationEngine._execute_notification`: only the `log`
channel is implemented. -/
def execute_notification (message : Option String)
    (notification_type : Option String) : List Event :=
  let msg := message.getD "Automation rule triggered"
  if notification_type.getD "log" == "log" then [.notified msg] else []

/-- Embedding of `AutomationEngine._execute_webhook`: POST or GET with the
method upper-cased; other methods are logged and skipped; a raising HTTP
call (including a missing `url`) is caught and logged. -/
def execute_webhook (env : Env) (url : Option String) (method : Option String) :
    List Event :=
  let m := (method.getD "POST").toUpper
  if m == "POST" || m == "GET" then
    match url with
    | none => [.webhook_error]
    | some u => if env.webhook_raises then [.webhook_error] else [.webhook_done u]
  else [.unsupported_method]

mutual
/-- Embedding of `AutomationEngine._execute_action`: dispatch on the `type`
discriminator; every branch catches its own exceptions, so action
execution always returns. -/
def execute_action (env : Env) (device_id : Option String) : ActionCmd → List Event
  | .device_command command => execute_device_command env device_id command
  | .notification message ntype => execute_notification message ntype
  | .webhook url method => execute_webhook env url method
  | .delay seconds => [.delayed (seconds.getD 1)]
  | .sequence actions => execute_action_list env actions
  | .unknown_type => [.unknown_action]

/-- Loop body of `AutomationEngine._execute_sequence`: each sub-action runs
against its own `device_id` key, in listed order. -/
def execute_action_list (env : Env) : ActionList → List Event
  | .nil => []
  | .cons d a rest => execute_action env d a ++ execute_action_list env rest
end

/-- Append on sub-action lists, for stating properties about sequences. -/
def ActionList.append : ActionList → ActionList → ActionList
  | .nil, l => l
  | .cons d a rest, l => .cons d a (rest.append l)

/-- In-memory state of the engine: the `self.last_evaluation` dictionary,
mapping rule keys to the time the rule last fired. -/
structure EngineState where
  last_evaluation : List (String × Int)
deriving DecidableEq, Repr

/-- Python `f"rule_{rule.id}"`. -/
def rule_key (id : Nat) : String := "rule_" ++ toString id

/-- Python dictionary assignment `self.last_evaluation[key] = v`. -/
def set_time (key : String) (v : Int) : List (String × Int) → List (String × Int)
  | [] => [(key, v)]
  | (k, w) :: rest => if k == key then (key, v) :: rest else (k, w) :: set_time key v rest

/-- Embedding of `AutomationEngine._evaluate_rule`.  Control flow of the
source: parse the trigger JSON (a parse failure is caught, nothing else
happens); gate on `min_interval_seconds` against the last evaluation time
(default `datetime.min`); evaluate the condition; on `true`, log the
trigger, parse the action JSON (a parse failure is caught after the
trigger log and skips both execution and the timestamp update), execute
the action and record "now" as the rule's last evaluation time. -/
def evaluate_rule (env : Env) (s : EngineState) (r : Rule) :
    EngineState × List Event :=
  match r.trigger_condition with
  | none => (s, [.rule_error r.id])
  | some trig =>
    let last_eval := (List.lookup (rule_key r.id) s.last_evaluation).getD datetime_min
    let min_interval := trig.min_interval_seconds.getD 30
    if env.now - last_eval < min_interval then (s, [])
    else
      if check_trigger_condition env (some r.trigger_device_id) trig.cond then
        match r.action_command with
        | none => (s, [.rule_triggered r.id, .rule_error r.id])
        | some action_command =>
          (⟨set_time (rule_key r.id) env.now s.last_evaluation⟩,
           .rule_triggered r.id :: execute_action env (some r.action_device_id) action_command)
      else (s, [])

/-- Loop body of `AutomationEngine._evaluate_all_rules` over an already
fetched rule list: each rule is evaluated inside its own `try/except`. -/
def evaluate_rules (env : Env) (s : EngineState) : List Rule → EngineState × List Event
  | [] => (s, [])
  | r :: rest =>
    let step := evaluate_rule env s r
    let others := evaluate_rules env step.1 rest
    (others.1, step.2 ++ others.2)

/-- Embedding of `AutomationEngine._evaluate_all_rules`: fetch the rules
with `is_active=True` and evaluate each in order. -/
def evaluate_all_rules (env : Env) (s : EngineState) (rules : List Rule) :
    EngineState × List Event :=
  evaluate_rules env s (rules.filter (·.is_active))

/-! Shared lemmas about the telemetry query. -/

/-- Result of the telemetry query is sorted newest-first. -/
theorem query_desc_sorted (db : List DeviceData) (dev dt : Option String) (since : Int) :
    List.Sorted ts_desc (query_desc db dev dt since) :=
  List.sorted_insertionSort ts_desc _

/-- Membership in the telemetry query result is exactly the filter clause
of the source query. -/
theorem query_desc_mem (db : List DeviceData) (dev dt : Option String) (since : Int)
    (d : DeviceData) :
    d ∈ query_desc db dev dt since ↔
      d ∈ db ∧ some d.device_id = dev ∧ some d.data_type = dt ∧ since ≤ d.timestamp := by
  unfold query_desc
  rw [(List.perm_insertionSort ts_desc _).mem_iff, List.mem_filter]
  simp [and_assoc]

/-- Head of the telemetry query result has the maximal timestamp: it is the
most recent in-window sample. -/
theorem query_desc_head_max (db : List DeviceData) (dev dt : Option String)
    (since : Int) (a : DeviceData) (rest : List DeviceData)
    (h : query_desc db dev dt since = a :: rest) :
    ∀ d ∈ query_desc db dev dt since, d.timestamp ≤ a.timestamp := by
  intro d hd
  have hs := query_desc_sorted db dev dt since
  rw [h] at hs hd
  rw [List.mem_cons] at hd
  rcases hd with rfl | hd
  · exact le_refl _
  · exact List.rel_of_sorted_cons hs d hd

/-!
Claim theorems.
-/

/-- C1: for every `ValueThreshold` condition and every operator in
{gt, lt, eq, gte, lte}: if no telemetry sample exists for
`(deviceId, dataType)` within the trailing window (default 5 minutes),
evaluation returns false; otherwise the boolean result equals the direct
numeric comparison of the most recent sample's value against the
threshold, with `eq` being exact equality. -/
theorem value_threshold_matches_direct_comparison
    (env : Env) (dev : Option String) (dt : String) (op : String) (thr : ℚ)
    (tw : Option Int)
    (hop : op = "gt" ∨ op = "lt" ∨ op = "eq" ∨ op = "gte" ∨ op = "lte") :
    (query_desc env.db dev (some dt) (env.now - 60 * (tw.getD 5)) = [] →
      check_trigger_condition env dev
        (.value_threshold (some dt) (some op) (some thr) tw) = false) ∧
    (∀ a rest,
      query_desc env.db dev (some dt) (env.now - 60 * (tw.getD 5)) = a :: rest →
      (∀ d ∈ query_desc env.db dev (some dt) (env.now - 60 * (tw.getD 5)),
         d.timestamp ≤ a.timestamp) ∧
      (check_trigger_condition env dev
          (.value_threshold (some dt) (some op) (some thr) tw) = true ↔
        (op = "gt" ∧ a.value > thr) ∨ (op = "lt" ∧ a.value < thr) ∨
        (op = "eq" ∧ a.value = thr) ∨ (op = "gte" ∧ a.value ≥ thr) ∨
        (op = "lte" ∧ a.value ≤ thr))) := by
  constructor
  · intro hq
    simp [check_trigger_condition, check_value_threshold, hq]
  · intro a rest hq
    refine ⟨query_desc_head_max _ _ _ _ _ _ hq, ?_⟩
    rcases hop with rfl | rfl | rfl | rfl | rfl <;>
      simp [check_trigger_condition, check_value_threshold, hq]

/-- C1 witness: a single in-window temperature sample of 26 makes the
condition `gt 25` evaluate true. -/
theorem value_threshold_matches_direct_comparison_witness :
    check_trigger_condition
      ⟨1000, "12:00", 0, [⟨"temp_001", "temperature", 950, 26⟩], [], true,
        fun _ => false, false⟩
      (some "temp_001")
      (.value_threshold (some "temperature") (some "gt") (some 25) none) = true := by
  have h := value_threshold_matches_direct_comparison
    ⟨1000, "12:00", 0, [⟨"temp_001", "temperature", 950, 26⟩], [], true,
      fun _ => false, false⟩
    (some "temp_001") "temperature" "gt" 25 none (Or.inl rfl)
  have hq : query_desc [⟨"temp_001", "temperature", 950, 26⟩] (some "temp_001")
      (some "temperature") (1000 - 60 * ((none : Option Int).getD 5)) =
      [⟨"temp_001", "temperature", 950, 26⟩] := by decide
  exact ((h.2 _ [] hq).2).mpr (Or.inl ⟨rfl, by norm_num⟩)

/-- C5: for every `ValueChange` condition: with fewer than two samples for
`(deviceId, dataType)` in the window (default 10 minutes) the result is
false; otherwise, with delta = newest value minus second-newest value, the
result is delta ≥ minChange for changeType increase, delta ≤ −minChange
for decrease, and |delta| ≥ minChange for any. -/
theorem value_change_semantics
    (env : Env) (dev : Option String) (dt : String) (ct : String) (mc : ℚ)
    (tw : Option Int) :
    ((query_desc env.db dev (some dt) (env.now - 60 * (tw.getD 10))).length < 2 →
      check_trigger_condition env dev
        (.value_change (some dt) (some ct) (some mc) tw) = false) ∧
    (∀ a b rest,
      query_desc env.db dev (some dt) (env.now - 60 * (tw.getD 10)) = a :: b :: rest →
      (b.timestamp ≤ a.timestamp ∧ ∀ d ∈ rest, d.timestamp ≤ b.timestamp) ∧
      (ct = "increase" →
        (check_trigger_condition env dev
            (.value_change (some dt) (some ct) (some mc) tw) = true ↔
          a.value - b.value ≥ mc)) ∧
      (ct = "decrease" →
        (check_trigger_condition env dev
            (.value_change (some dt) (some ct) (some mc) tw) = true ↔
          a.value - b.value ≤ -mc)) ∧
      (ct = "any" →
        (check_trigger_condition env dev
            (.value_change (some dt) (some ct) (some mc) tw) = true ↔
          |a.value - b.value| ≥ mc))) := by
  constructor
  · intro hlen
    match hq : query_desc env.db dev (some dt) (env.now - 60 * (tw.getD 10)) with
    | [] => simp [check_trigger_condition, check_value_change, hq]
    | [a] => simp [check_trigger_condition, check_value_change, hq]
    | a :: b :: rest =>
      rw [hq] at hlen
      simp at hlen
      omega
  · intro a b rest hq
    have hs := query_desc_sorted env.db dev (some dt) (env.now - 60 * (tw.getD 10))
    rw [hq] at hs
    refine ⟨⟨List.rel_of_sorted_cons hs b (List.mem_cons_self b rest), ?_⟩, ?_, ?_, ?_⟩
    · exact fun d hd => List.rel_of_sorted_cons (List.sorted_cons.mp hs).2 d hd
    all_goals
      rintro rfl
      simp [check_trigger_condition, check_value_change, hq]

/-- C5 witness: the spec scenario — temperature rising from 20 to 23 with
`changeType=increase`, `minChange=2` evaluates true. -/
theorem value_change_semantics_witness :
    check_trigger_condition
      ⟨1000, "12:00", 0,
        [⟨"t1", "temperature", 900, 20⟩, ⟨"t1", "temperature", 960, 23⟩], [], true,
        fun _ => false, false⟩
      (some "t1")
      (.value_change (some "temperature") (some "increase") (some 2) none) = true := by
  have h := value_change_semantics
    ⟨1000, "12:00", 0,
      [⟨"t1", "temperature", 900, 20⟩, ⟨"t1", "temperature", 960, 23⟩], [], true,
      fun _ => false, false⟩
    (some "t1") "temperature" "increase" 2 none
  have hq : query_desc
      [⟨"t1", "temperature", 900, 20⟩, ⟨"t1", "temperature", 960, 23⟩]
      (some "t1") (some "temperature") (1000 - 60 * ((none : Option Int).getD 10)) =
      [⟨"t1", "temperature", 960, 23⟩, ⟨"t1", "temperature", 900, 20⟩] := by decide
  exact ((h.2 _ _ [] hq).2.1 rfl).mpr (by norm_num)

/-- Helper: `check_cond_list_all` is the conjunction of the child checks,
each child resolved against its own `device_id`. -/
theorem check_cond_list_all_iff (env : Env) :
    ∀ l : CondList, check_cond_list_all env l = true ↔
      ∀ p ∈ l.toList, check_trigger_condition env p.1 p.2 = true
  | .nil => by simp [check_cond_list_all, CondList.toList]
  | .cons d c rest => by
    simp [check_cond_list_all, CondList.toList, Bool.and_eq_true,
      check_cond_list_all_iff env rest]

/-- Helper: `check_cond_list_any` is the disjunction of the child checks. -/
theorem check_cond_list_any_iff (env : Env) :
    ∀ l : CondList, check_cond_list_any env l = true ↔
      ∃ p ∈ l.toList, check_trigger_condition env p.1 p.2 = true
  | .nil => by simp [check_cond_list_any, CondList.toList]
  | .cons d c rest => by
    simp [check_cond_list_any, CondList.toList, Bool.or_eq_true,
      check_cond_list_any_iff env rest]

/-- C4: for every `Composite` condition: with operator AND the result is
true iff every child condition is true, and AND over an empty child list
is true (vacuous truth); with operator OR the result is true iff at least
one child is true, and OR over an empty list is false; each child is
evaluated against its own deviceId field, never inheriting the parent
rule's device id. -/
theorem composite_condition_semantics
    (env : Env) (dev : Option String) (op : Option String) (subs : CondList) :
    (check_trigger_condition env dev (.composite (some "AND") subs) = true ↔
      ∀ p ∈ subs.toList, check_trigger_condition env p.1 p.2 = true) ∧
    (check_trigger_condition env dev (.composite (some "OR") subs) = true ↔
      ∃ p ∈ subs.toList, check_trigger_condition env p.1 p.2 = true) ∧
    check_trigger_condition env dev (.composite (some "AND") .nil) = true ∧
    check_trigger_condition env dev (.composite (some "OR") .nil) = false ∧
    (∀ dev' : Option String,
      check_trigger_condition env dev (.composite op subs) =
        check_trigger_condition env dev' (.composite op subs)) := by
  refine ⟨?_, ?_, ?_, ?_, ?_⟩
  · simpa [check_trigger_condition] using check_cond_list_all_iff env subs
  · simpa [check_trigger_condition] using check_cond_list_any_iff env subs
  · simp [check_trigger_condition, check_cond_list_all]
  · simp [check_trigger_condition, check_cond_list_any]
  · intro dev'
    simp [check_trigger_condition]

/-- C9: for every `time_of_day` condition with startTime ≤ endTime the
result is true iff the current "HH:MM" time is between startTime and
endTime inclusive; when startTime > endTime the window crosses midnight
and the result is true iff the current time is ≥ startTime or ≤ endTime —
so start "22:00", end "06:00" is true at "23:30" and "02:00" and false at
"12:00". -/
theorem time_of_day_window_semantics
    (env : Env) (dev : Option String) (st et : String) :
    (str_le st et = true →
      (check_trigger_condition env dev
          (.time_based (.time_of_day (some st) (some et))) = true ↔
        str_le st env.now_local_hhmm = true ∧ str_le env.now_local_hhmm et = true)) ∧
    (str_le st et = false →
      (check_trigger_condition env dev
          (.time_based (.time_of_day (some st) (some et))) = true ↔
        str_le st env.now_local_hhmm = true ∨ str_le env.now_local_hhmm et = true)) ∧
    check_trigger_condition ⟨0, "23:30", 0, [], [], true, fun _ => false, false⟩ none
        (.time_based (.time_of_day (some "22:00") (some "06:00"))) = true ∧
    check_trigger_condition ⟨0, "02:00", 0, [], [], true, fun _ => false, false⟩ none
        (.time_based (.time_of_day (some "22:00") (some "06:00"))) = true ∧
    check_trigger_condition ⟨0, "12:00", 0, [], [], true, fun _ => false, false⟩ none
        (.time_based (.time_of_day (some "22:00") (some "06:00"))) = false := by
  refine ⟨?_, ?_, by decide, by decide, by decide⟩
  · intro hle
    simp [check_trigger_condition, check_time_based, hle]
  · intro hgt
    simp [check_trigger_condition, check_time_based, hgt]

/-- C9 witness: a non-crossing window 09:00–17:00 contains 12:00. -/
theorem time_of_day_window_semantics_witness :
    check_trigger_condition ⟨0, "12:00", 0, [], [], true, fun _ => false, false⟩
      none (.time_based (.time_of_day (some "09:00") (some "17:00"))) = true := by
  have h := time_of_day_window_semantics
    ⟨0, "12:00", 0, [], [], true, fun _ => false, false⟩ none "09:00" "17:00"
  exact (h.1 (by decide)).mpr ⟨by decide, by decide⟩

/-- Helper: looking up a key just written by dictionary assignment yields
the written value. -/
theorem lookup_set_time (key : String) (v : Int) :
    ∀ l : List (String × Int), List.lookup key (set_time key v l) = some v
  | [] => by simp [set_time, List.lookup]
  | (k, w) :: rest => by
    rcases eq_or_ne k key with h | h
    · simp [set_time, List.lookup, h]
    · have hk : (key == k) = false := beq_eq_false_iff_ne.mpr (Ne.symm h)
      simp [set_time, List.lookup, h, hk, lookup_set_time key v rest]

/-- C2: for every rule with minIntervalSeconds=T (default 30 when absent
at the condition root): if now minus the rule's last-fired time is less
than T, the rule is skipped for this tick before its condition is
evaluated — the outcome is the same for every environment with the same
clock, regardless of telemetry, and no action is dispatched; once elapsed
time is at least T, evaluation proceeds and a firing dispatches the
action and stamps the fire-state entry with "now", so two firings of the
same rule are never separated by less than T. -/
theorem rate_limit_pre_filter
    (env env2 : Env) (s : EngineState) (r : Rule) (trig : TriggerSpec)
    (htrig : r.trigger_condition = some trig) :
    (env.now - (List.lookup (rule_key r.id) s.last_evaluation).getD datetime_min <
        trig.min_interval_seconds.getD 30 →
      env2.now = env.now →
      evaluate_rule env2 s r = (s, [])) ∧
    (trig.min_interval_seconds.getD 30 ≤
        env.now - (List.lookup (rule_key r.id) s.last_evaluation).getD datetime_min →
      check_trigger_condition env (some r.trigger_device_id) trig.cond = true →
      ∀ act, r.action_command = some act →
        evaluate_rule env s r =
          (⟨set_time (rule_key r.id) env.now s.last_evaluation⟩,
           .rule_triggered r.id ::
             execute_action env (some r.action_device_id) act)) ∧
    (∀ s2 evs, evaluate_rule env s r = (s2, evs) →
      s2.last_evaluation = s.last_evaluation ∨
      List.lookup (rule_key r.id) s2.last_evaluation = some env.now) := by
  refine ⟨?_, ?_, ?_⟩
  · intro hlt hnow
    simp only [evaluate_rule, htrig]
    rw [hnow, if_pos hlt]
  · intro hge hcond act hact
    simp only [evaluate_rule, htrig, hact, hcond]
    rw [if_neg (not_lt.mpr hge)]
    simp
  · intro s2 evs heval
    rcases htc : r.trigger_condition with _ | trig2
    · simp only [evaluate_rule, htc] at heval
      exact Or.inl (congrArg (fun p => p.1.last_evaluation) heval.symm)
    · simp only [evaluate_rule, htc] at heval
      by_cases hgate :
          env.now - (List.lookup (rule_key r.id) s.last_evaluation).getD datetime_min <
            trig2.min_interval_seconds.getD 30
      · rw [if_pos hgate] at heval
        exact Or.inl (congrArg (fun p => p.1.last_evaluation) heval.symm)
      · rw [if_neg hgate] at heval
        by_cases hcond :
            check_trigger_condition env (some r.trigger_device_id) trig2.cond = true
        · rw [if_pos hcond] at heval
          rcases hac : r.action_command with _ | act
          · rw [hac] at heval
            exact Or.inl (congrArg (fun p => p.1.last_evaluation) heval.symm)
          · rw [hac] at heval
            refine Or.inr ?_
            have : s2.last_evaluation = set_time (rule_key r.id) env.now s.last_evaluation :=
              congrArg (fun p => p.1.last_evaluation) heval.symm
            rw [this]
            exact lookup_set_time _ _ _
        · rw [if_neg hcond] at heval
          exact Or.inl (congrArg (fun p => p.1.last_evaluation) heval.symm)

/-- C2 witness: a rule that fired 10 seconds ago with a 30 second minimum
interval is skipped with no state change and no events. -/
theorem rate_limit_pre_filter_witness :
    evaluate_rule ⟨1000, "12:00", 0, [], [], true, fun _ => false, false⟩
      ⟨[("rule_2", 990)]⟩
      ⟨2, "d", some ⟨some 30, .time_based (.time_of_day (some "00:00") (some "23:59"))⟩,
        "a", some (.notification none none), true⟩ =
      (⟨[("rule_2", 990)]⟩, []) := by
  exact (rate_limit_pre_filter
    ⟨1000, "12:00", 0, [], [], true, fun _ => false, false⟩
    ⟨1000, "12:00", 0, [], [], true, fun _ => false, false⟩
    ⟨[("rule_2", 990)]⟩
    ⟨2, "d", some ⟨some 30, .time_based (.time_of_day (some "00:00") (some "23:59"))⟩,
      "a", some (.notification none none), true⟩
    _ rfl).1 (by decide) rfl

/-- C3 counterexample: a rule whose condition is true but whose stored
action document is malformed (its `json.loads` raises): the trigger is
logged, yet the fire-state map is left unchanged — the last-fired entry is
not written "unconditionally". -/
theorem last_fired_not_updated_on_malformed_action :
    check_trigger_condition ⟨1000, "12:00", 0, [], [], true, fun _ => false, false⟩
        (some "d") (.time_based (.time_of_day (some "00:00") (some "23:59"))) = true ∧
    evaluate_rule ⟨1000, "12:00", 0, [], [], true, fun _ => false, false⟩ ⟨[]⟩
        ⟨3, "d", some ⟨none, .time_based (.time_of_day (some "00:00") (some "23:59"))⟩,
          "a", none, true⟩ =
      (⟨[]⟩, [.rule_triggered 3, .rule_error 3]) ∧
    List.lookup (rule_key 3)
        (evaluate_rule ⟨1000, "12:00", 0, [], [], true, fun _ => false, false⟩ ⟨[]⟩
          ⟨3, "d", some ⟨none, .time_based (.time_of_day (some "00:00") (some "23:59"))⟩,
            "a", none, true⟩).1.last_evaluation = none := by decide

/-- C3 (amended): when the rule's condition is true and its action
document parses, the fire-state entry is updated to "now" regardless of
how action execution itself goes (the executor catches its own
exceptions); when the action document is malformed, the parse error is
raised before the update, so the fire-state is left unchanged. -/
theorem last_fired_updated_when_action_parses
    (env : Env) (s : EngineState) (r : Rule) (trig : TriggerSpec)
    (htrig : r.trigger_condition = some trig)
    (hgate : trig.min_interval_seconds.getD 30 ≤
      env.now - (List.lookup (rule_key r.id) s.last_evaluation).getD datetime_min)
    (hcond : check_trigger_condition env (some r.trigger_device_id) trig.cond = true) :
    (∀ act, r.action_command = some act →
      (evaluate_rule env s r).1.last_evaluation =
        set_time (rule_key r.id) env.now s.last_evaluation) ∧
    (r.action_command = none → (evaluate_rule env s r).1 = s) := by
  constructor
  · intro act hact
    simp only [evaluate_rule, htrig, hact, hcond]
    rw [if_neg (not_lt.mpr hgate)]
    simp
  · intro hact
    simp only [evaluate_rule, htrig, hact, hcond]
    rw [if_neg (not_lt.mpr hgate)]
    simp

/-- C3 witness: the action dispatch fails (the MQTT publish raises for
every device) yet the fire-state entry is still stamped with "now". -/
theorem last_fired_updated_when_action_parses_witness :
    (evaluate_rule ⟨1000, "12:00", 0, [], [], true, fun _ => true, false⟩ ⟨[]⟩
        ⟨4, "d", some ⟨none, .time_based (.time_of_day (some "00:00") (some "23:59"))⟩,
          "a", some (.device_command none), true⟩).1.last_evaluation =
      set_time (rule_key 4) 1000 [] := by
  exact (last_fired_updated_when_action_parses
    ⟨1000, "12:00", 0, [], [], true, fun _ => true, false⟩ ⟨[]⟩
    ⟨4, "d", some ⟨none, .time_based (.time_of_day (some "00:00") (some "23:59"))⟩,
      "a", some (.device_command none), true⟩
    _ rfl (by decide) (by decide)).1 _ rfl

/-- C6 counterexample: a rule evaluated for the first time whose condition
is false: no fire-state entry is created by that first evaluation — the
entry is only created when the rule first fires, not on first
evaluation. -/
theorem no_entry_created_on_first_evaluation :
    evaluate_rule ⟨1000, "12:00", 0, [], [], true, fun _ => false, false⟩ ⟨[]⟩
        ⟨6, "d", some ⟨none, .time_based (.time_of_day (some "13:00") (some "14:00"))⟩,
          "a", some (.notification none none), true⟩ = (⟨[]⟩, []) ∧
    List.lookup (rule_key 6)
        (evaluate_rule ⟨1000, "12:00", 0, [], [], true, fun _ => false, false⟩ ⟨[]⟩
          ⟨6, "d", some ⟨none, .time_based (.time_of_day (some "13:00") (some "14:00"))⟩,
            "a", some (.notification none none), true⟩).1.last_evaluation = none := by decide

/-- C6 (amended): the fire-state map is changed by a rule evaluation only
when the rule actually fires (condition true and action document parsed),
in which case the rule's entry is written with "now"; every other
evaluation — first or later — leaves the map untouched. -/
theorem fire_state_entry_only_on_firing (env : Env) (s : EngineState) (r : Rule) :
    (evaluate_rule env s r).1.last_evaluation = s.last_evaluation ∨
    (∃ trig act, r.trigger_condition = some trig ∧ r.action_command = some act ∧
      check_trigger_condition env (some r.trigger_device_id) trig.cond = true ∧
      (evaluate_rule env s r).1.last_evaluation =
        set_time (rule_key r.id) env.now s.last_evaluation) := by
  rcases htc : r.trigger_condition with _ | trig
  · simp [evaluate_rule, htc]
  · by_cases hgate :
        env.now - (List.lookup (rule_key r.id) s.last_evaluation).getD datetime_min <
          trig.min_interval_seconds.getD 30
    · left
      simp only [evaluate_rule, htc]
      rw [if_pos hgate]
    · by_cases hcond :
          check_trigger_condition env (some r.trigger_device_id) trig.cond = true
      · rcases hac : r.action_command with _ | act
        · left
          simp only [evaluate_rule, htc, hac, hcond]
          rw [if_neg hgate]
          simp
        · right
          refine ⟨trig, act, rfl, rfl, hcond, ?_⟩
          simp only [evaluate_rule, htc, hac, hcond]
          rw [if_neg hgate]
          simp
      · left
        have hcf : check_trigger_condition env (some r.trigger_device_id) trig.cond = false := by
          simpa using hcond
        simp only [evaluate_rule, htc, hcf]
        rw [if_neg hgate]
        simp

/-- Helper: evaluating a concatenated rule list threads the state through
the first part and appends the event logs. -/
theorem evaluate_rules_append (env : Env) :
    ∀ (l1 : List Rule) (s : EngineState) (l2 : List Rule),
      evaluate_rules env s (l1 ++ l2) =
        ((evaluate_rules env (evaluate_rules env s l1).1 l2).1,
         (evaluate_rules env s l1).2 ++
           (evaluate_rules env (evaluate_rules env s l1).1 l2).2)
  | [], s, l2 => by simp [evaluate_rules]
  | r :: rest, s, l2 => by
    simp only [List.cons_append, evaluate_rules, List.append_eq]
    rw [evaluate_rules_append env rest (evaluate_rule env s r).1 l2]
    simp [List.append_assoc]

/-- C7: within a single tick, an error raised while evaluating one rule
(here: a malformed trigger document, whose `json.loads` raises and is
caught) does not prevent the evaluation of every subsequent active rule
in the same tick: the tick result decomposes into the rules before the
failing one, the error event, and the rules after it, evaluated
normally. -/
theorem rule_failure_does_not_block_subsequent_rules
    (env : Env) (s : EngineState) (pre post : List Rule) (bad : Rule)
    (hbad : bad.trigger_condition = none) (hactive : bad.is_active = true) :
    evaluate_all_rules env s (pre ++ bad :: post) =
      ((evaluate_all_rules env (evaluate_all_rules env s pre).1 post).1,
       (evaluate_all_rules env s pre).2 ++
         Event.rule_error bad.id ::
           (evaluate_all_rules env (evaluate_all_rules env s pre).1 post).2) := by
  unfold evaluate_all_rules
  rw [List.filter_append, List.filter_cons_of_pos (by simp [hactive]),
    evaluate_rules_append]
  have hbadstep : ∀ s0 : EngineState,
      evaluate_rule env s0 bad = (s0, [Event.rule_error bad.id]) := by
    intro s0
    simp [evaluate_rule, hbad]
  simp [evaluate_rules, hbadstep]

/-- C7 witness: with no rules before it, a malformed rule followed by a
healthy firing rule still lets the healthy rule fire in the same tick. -/
theorem rule_failure_does_not_block_subsequent_rules_witness :
    evaluate_all_rules ⟨1000, "12:00", 0, [], [], true, fun _ => false, false⟩ ⟨[]⟩
        [⟨8, "d", none, "a", some (.notification none none), true⟩,
         ⟨9, "d", some ⟨none, .time_based (.time_of_day (some "00:00") (some "23:59"))⟩,
           "a", some (.notification (some "hello") none), true⟩] =
      (⟨[("rule_9", 1000)]⟩,
       [.rule_error 8, .rule_triggered 9, .notified "hello"]) := by
  have h := rule_failure_does_not_block_subsequent_rules
    ⟨1000, "12:00", 0, [], [], true, fun _ => false, false⟩ ⟨[]⟩ []
    [⟨9, "d", some ⟨none, .time_based (.time_of_day (some "00:00") (some "23:59"))⟩,
      "a", some (.notification (some "hello") none), true⟩]
    ⟨8, "d", none, "a", some (.notification none none), true⟩ rfl rfl
  rw [List.nil_append] at h
  rw [h]
  decide

/-- Helper: executing an appended sub-action list executes both parts in
order. -/
theorem execute_action_list_append (env : Env) :
    ∀ u v : ActionList,
      execute_action_list env (u.append v) =
        execute_action_list env u ++ execute_action_list env v
  | .nil, v => by simp [ActionList.append, execute_action_list]
  | .cons d a rest, v => by
    simp [ActionList.append, execute_action_list,
      execute_action_list_append env rest v]

/-- C8: for every `Sequence` action, each listed sub-action is executed
strictly in the listed order, each against its own declared device id
(the sequence's own device argument is not consulted); a failure in one
sub-action — here a device command whose MQTT publish raises — does not
abort the remaining sub-actions, which still produce their effects after
the failure's error event. -/
theorem sequence_best_effort
    (env : Env) (dev d2 : Option String) (c2 : Option String) (l1 l2 : ActionList)
    (hconn : env.mqtt_connected = true) (hfail : env.publish_raises d2 = true) :
    (∀ u v : ActionList,
      execute_action_list env (u.append v) =
        execute_action_list env u ++ execute_action_list env v) ∧
    (∀ dv : Option String,
      execute_action env dv (.sequence l1) = execute_action_list env l1) ∧
    execute_action env dev
        (.sequence (l1.append (.cons d2 (.device_command c2) l2))) =
      execute_action_list env l1 ++
        Event.command_error d2 :: execute_action_list env l2 := by
  refine ⟨execute_action_list_append env, fun dv => rfl, ?_⟩
  show execute_action_list env (l1.append (.cons d2 (.device_command c2) l2)) = _
  rw [execute_action_list_append env]
  simp [execute_action_list, execute_action, execute_device_command, hconn, hfail]

/-- C8 witness: a three-command sequence whose second publish raises still
sends the third command, in order. -/
theorem sequence_best_effort_witness :
    execute_action
      ⟨0, "00:00", 0, [], [], true, fun d => d == some "b", false⟩ (some "x")
      (.sequence (.cons (some "a") (.device_command (some "on"))
        (.cons (some "b") (.device_command (some "on"))
          (.cons (some "c") (.device_command (some "on")) .nil)))) =
      [.command_sent (some "a") (some "on"),
       .command_error (some "b"),
       .command_sent (some "c") (some "on")] := by
  have h := (sequence_best_effort
    ⟨0, "00:00", 0, [], [], true, fun d => d == some "b", false⟩
    (some "x") (some "b") (some "on")
    (.cons (some "a") (.device_command (some "on")) .nil)
    (.cons (some "c") (.device_command (some "on")) .nil)
    rfl (by decide)).2.2
  rw [show ActionList.append
      (.cons (some "a") (.device_command (some "on")) .nil)
      (.cons (some "b") (.device_command (some "on"))
        (.cons (some "c") (.device_command (some "on")) .nil)) =
      (.cons (some "a") (.device_command (some "on"))
        (.cons (some "b") (.device_command (some "on"))
          (.cons (some "c") (.device_command (some "on")) .nil))) from by decide] at h
  rw [h]
  decide

/-- C10 counterexample: a rule that has never fired (no fire-state entry)
whose `min_interval_seconds` is 2·10¹² — larger than the ≈6.39·10¹⁰
seconds separating `datetime.min` from a 2025-era clock: the gate blocks
even the very first evaluation, although the condition would be true, so
the gate does not pass "for any minIntervalSeconds value". -/
theorem first_evaluation_gate_can_block :
    List.lookup (rule_key 7) ([] : List (String × Int)) = none ∧
    check_trigger_condition ⟨1760227200, "12:00", 0, [], [], true, fun _ => false, false⟩
        (some "d") (.time_based (.time_of_day (some "00:00") (some "23:59"))) = true ∧
    evaluate_rule ⟨1760227200, "12:00", 0, [], [], true, fun _ => false, false⟩ ⟨[]⟩
        ⟨7, "d",
          some ⟨some 2000000000000,
            .time_based (.time_of_day (some "00:00") (some "23:59"))⟩,
          "a", some (.notification none none), true⟩ =
      (⟨[]⟩, []) := by decide

/-- C10 (amended): for a rule with no fire-state entry the last-fired time
defaults to `datetime.min`, so on its first evaluation the gate passes —
and the condition is evaluated, a true condition firing the rule —
exactly when minIntervalSeconds is at most now − datetime.min (about
6.39·10¹⁰ seconds for a present-day clock, hence any realistic interval);
for larger values the gate blocks even the first evaluation. -/
theorem first_evaluation_gate_default
    (env : Env) (s : EngineState) (r : Rule) (trig : TriggerSpec)
    (htrig : r.trigger_condition = some trig)
    (hnew : List.lookup (rule_key r.id) s.last_evaluation = none) :
    (trig.min_interval_seconds.getD 30 ≤ env.now - datetime_min →
      check_trigger_condition env (some r.trigger_device_id) trig.cond = true →
      ∀ act, r.action_command = some act →
        evaluate_rule env s r =
          (⟨set_time (rule_key r.id) env.now s.last_evaluation⟩,
           .rule_triggered r.id ::
             execute_action env (some r.action_device_id) act)) ∧
    (env.now - datetime_min < trig.min_interval_seconds.getD 30 →
      evaluate_rule env s r = (s, [])) := by
  constructor
  · intro hge hcond act hact
    simp only [evaluate_rule, htrig, hact, hcond, hnew, Option.getD_none]
    rw [if_neg (not_lt.mpr hge)]
    simp
  · intro hlt
    simp only [evaluate_rule, htrig, hnew, Option.getD_none]
    rw [if_pos hlt]

/-- C10 witness: a never-fired rule with the default 30 second interval is
evaluated and fires on its first tick. -/
theorem first_evaluation_gate_default_witness :
    evaluate_rule ⟨1000, "12:00", 0, [], [], true, fun _ => false, false⟩ ⟨[]⟩
        ⟨5, "d", some ⟨none, .time_based (.time_of_day (some "00:00") (some "23:59"))⟩,
          "a", some (.notification none none), true⟩ =
      (⟨set_time (rule_key 5) 1000 []⟩,
       .rule_triggered 5 ::
         execute_action ⟨1000, "12:00", 0, [], [], true, fun _ => false, false⟩
           (some "a") (.notification none none)) := by
  exact (first_evaluation_gate_default
    ⟨1000, "12:00", 0, [], [], true, fun _ => false, false⟩ ⟨[]⟩
    ⟨5, "d", some ⟨none, .time_based (.time_of_day (some "00:00") (some "23:59"))⟩,
      "a", some (.notification none none), true⟩
    _ rfl rfl).1 (by decide) (by decide) _ rfl

end AutomationEngine
